import Mathlib

/-!
Verification of the nutriscan ingredient-scoring pipeline.

This file is a shallow embedding of `src/utils/ingredientDatabase.ts` and
`src/utils/scoringEngine.ts`.  JavaScript numbers are modelled as exact
rationals (`ℚ`) for running scores and as integers (`ℤ`) where the source only
ever holds integers; every concrete computation the theorems below evaluate is
exact in binary floating point as well (the values involved are small halves
and integers), so the rational model agrees with the source on them.
`Math.round` is `⌊x + 1/2⌋` (JavaScript rounds half-up).  The remote
classifier call (`analyzeIngredientsWithAI`) is an external collaborator; its
result — `[]` on any failure — is passed to `scoreProduct` as an explicit
parameter, and `new Date().toISOString()` is passed as the `scanDate`
parameter.
-/

namespace NutriScan

/-- JavaScript `Math.round`: round half toward positive infinity. -/
def jsRound (q : ℚ) : ℤ := ⌊q + 1/2⌋

/-- The whitespace class of JavaScript's `\s` / `trim`, restricted to ASCII. -/
def jsIsSpace (c : Char) : Bool :=
  c == ' ' || c == '\t' || c == '\n' || c == '\r' || c == '\x0b' || c == '\x0c'

/-- `String.prototype.trim`: drop leading and trailing whitespace. -/
def trimChars (l : List Char) : List Char :=
  ((l.dropWhile jsIsSpace).reverse.dropWhile jsIsSpace).reverse

/-- `trim` on strings. -/
def jsTrim (s : String) : String := String.mk (trimChars s.data)

/-- `String.prototype.toLowerCase` (ASCII). -/
def jsLower (s : String) : String := String.mk (s.data.map Char.toLower)

/-- `hay.includes(pat)`: `pat` occurs as a contiguous substring of `hay`. -/
def listIncludes (hay pat : List Char) : Bool :=
  pat.isPrefixOf hay ||
    (match hay with
     | [] => false
     | _ :: t => listIncludes t pat)

/-- `s.includes(sub)` on strings. -/
def jsIncludes (s sub : String) : Bool := listIncludes s.data sub.data

/-- Replace every maximal run of characters satisfying `p` by the single
character `rep`; `inRun` records whether the previous character was in a run.
This is `String.prototype.replace` with a `/p+/g` pattern. -/
def collapseRunsGo (p : Char → Bool) (rep : Char) : Bool → List Char → List Char
  | _, [] => []
  | inRun, c :: rest =>
    if p c then
      if inRun then collapseRunsGo p rep true rest
      else rep :: collapseRunsGo p rep true rest
    else c :: collapseRunsGo p rep false rest

/-- Replace every maximal run of characters satisfying `p` by `rep`. -/
def collapseRuns (p : Char → Bool) (rep : Char) (l : List Char) : List Char :=
  collapseRunsGo p rep false l

/-- `.replace(/\s+/g, '_')` — used for canonical forms. -/
def jsUnderscoreRuns (s : String) : String :=
  String.mk (collapseRuns jsIsSpace '_' s.data)

/-! ## Ingredient knowledge base (`ingredientDatabase.ts`) -/

/-- `RiskLevel` from `ingredientDatabase.ts`. -/
inductive RiskLevel
  | LOW
  | MODERATE
  | HIGH
deriving DecidableEq

/-- The optional `affectedBy` flag set of an `IngredientInfo`; an absent field
(or an absent `affectedBy` object, queried with `?.` in the source) reads as
`false`. -/
structure AffectedBy where
  allergies : Bool := false
  diabetes : Bool := false
  bloodPressure : Bool := false
  age : Bool := false
deriving DecidableEq

/-- `IngredientInfo` from `ingredientDatabase.ts`.  `baseScore` is an integer:
every database entry holds an integer literal. -/
structure IngredientInfo where
  name : String
  canonicalForm : String
  category : String
  baselineRisk : RiskLevel
  baseScore : ℤ
  concerns : List String
  affectedBy : AffectedBy
deriving DecidableEq

/-- `INGREDIENT_DATABASE`, as an association list in the source's insertion
order (JavaScript `Object.entries` iterates string keys in insertion order). -/
def INGREDIENT_DATABASE : List (String × IngredientInfo) :=
  [ ("sugar",
     { name := "Sugar", canonicalForm := "sugar", category := "sweetener",
       baselineRisk := .MODERATE, baseScore := 5,
       concerns := ["High glycemic index", "Blood sugar spikes"],
       affectedBy := { diabetes := true } }),
    ("high fructose corn syrup",
     { name := "High Fructose Corn Syrup", canonicalForm := "high_fructose_corn_syrup",
       category := "sweetener", baselineRisk := .HIGH, baseScore := 10,
       concerns := ["Metabolic issues", "High glycemic"],
       affectedBy := { diabetes := true } }),
    ("corn syrup",
     { name := "Corn Syrup", canonicalForm := "corn_syrup", category := "sweetener",
       baselineRisk := .HIGH, baseScore := 10,
       concerns := ["High glycemic index"],
       affectedBy := { diabetes := true } }),
    ("sodium",
     { name := "Sodium", canonicalForm := "sodium", category := "mineral",
       baselineRisk := .MODERATE, baseScore := 5,
       concerns := ["Blood pressure elevation"],
       affectedBy := { bloodPressure := true } }),
    ("salt",
     { name := "Salt", canonicalForm := "salt", category := "mineral",
       baselineRisk := .MODERATE, baseScore := 5,
       concerns := ["Blood pressure elevation", "Fluid retention"],
       affectedBy := { bloodPressure := true } }),
    ("monosodium glutamate",
     { name := "Monosodium Glutamate (MSG)", canonicalForm := "msg",
       category := "flavor_enhancer", baselineRisk := .MODERATE, baseScore := 5,
       concerns := ["Sodium content", "Headaches in sensitive individuals"],
       affectedBy := { bloodPressure := true } }),
    ("sodium benzoate",
     { name := "Sodium Benzoate", canonicalForm := "sodium_benzoate",
       category := "preservative", baselineRisk := .MODERATE, baseScore := 5,
       concerns := ["Preservative", "Sodium content"],
       affectedBy := { bloodPressure := true, age := true } }),
    ("saturated fat",
     { name := "Saturated Fat", canonicalForm := "saturated_fat", category := "fat",
       baselineRisk := .MODERATE, baseScore := 5,
       concerns := ["Cardiovascular health"],
       affectedBy := { age := true } }),
    ("trans fat",
     { name := "Trans Fat", canonicalForm := "trans_fat", category := "fat",
       baselineRisk := .HIGH, baseScore := 10,
       concerns := ["Cardiovascular disease", "Banned in many countries"],
       affectedBy := { age := true } }),
    ("palm oil",
     { name := "Palm Oil", canonicalForm := "palm_oil", category := "fat",
       baselineRisk := .MODERATE, baseScore := 5,
       concerns := ["High in saturated fat"],
       affectedBy := { age := true } }),
    ("artificial flavors",
     { name := "Artificial Flavors", canonicalForm := "artificial_flavors",
       category := "additive", baselineRisk := .MODERATE, baseScore := 5,
       concerns := ["Synthetic additives", "Unclear composition"],
       affectedBy := { allergies := true } }),
    ("artificial colors",
     { name := "Artificial Colors", canonicalForm := "artificial_colors",
       category := "additive", baselineRisk := .MODERATE, baseScore := 5,
       concerns := ["Hyperactivity in children", "Allergic reactions"],
       affectedBy := { allergies := true } }),
    ("milk",
     { name := "Milk", canonicalForm := "milk", category := "dairy",
       baselineRisk := .LOW, baseScore := 0,
       concerns := ["Common allergen"],
       affectedBy := { allergies := true } }),
    ("wheat",
     { name := "Wheat", canonicalForm := "wheat", category := "grain",
       baselineRisk := .LOW, baseScore := 0,
       concerns := ["Common allergen", "Gluten content"],
       affectedBy := { allergies := true } }),
    ("soy",
     { name := "Soy", canonicalForm := "soy", category := "legume",
       baselineRisk := .LOW, baseScore := 0,
       concerns := ["Common allergen"],
       affectedBy := { allergies := true } }),
    ("peanuts",
     { name := "Peanuts", canonicalForm := "peanuts", category := "nut",
       baselineRisk := .LOW, baseScore := 0,
       concerns := ["Severe allergen"],
       affectedBy := { allergies := true } }),
    ("whole wheat",
     { name := "Whole Wheat", canonicalForm := "whole_wheat", category := "grain",
       baselineRisk := .LOW, baseScore := 0,
       concerns := [],
       affectedBy := { allergies := true } }),
    ("oats",
     { name := "Oats", canonicalForm := "oats", category := "grain",
       baselineRisk := .LOW, baseScore := 0,
       concerns := [],
       affectedBy := {} }),
    ("water",
     { name := "Water", canonicalForm := "water", category := "liquid",
       baselineRisk := .LOW, baseScore := 0,
       concerns := [],
       affectedBy := {} }) ]

/-- `findIngredient` from `ingredientDatabase.ts`.  The source's signature is
`IngredientInfo | null` but every path returns a record, so the embedding is
total: exact-key match, then first partial (substring either way) match in
iteration order, then the unknown-ingredient default. -/
def findIngredient (ingredientName : String) : IngredientInfo :=
  let normalized := jsTrim (jsLower ingredientName)
  match INGREDIENT_DATABASE.find? (fun kv => kv.1 == normalized) with
  | some kv => kv.2
  | none =>
    match INGREDIENT_DATABASE.find? (fun kv =>
        jsIncludes normalized kv.1 || jsIncludes kv.1 normalized) with
    | some kv => kv.2
    | none =>
      { name := ingredientName
        canonicalForm := jsUnderscoreRuns normalized
        category := "unknown"
        baselineRisk := .LOW
        baseScore := 0
        concerns := ["Ingredient not in database"]
        affectedBy := {} }

/-! ## Scoring engine (`scoringEngine.ts`) -/

/-- `UserProfile` from `scoringEngine.ts`; optional numeric fields are
`Option ℤ`. -/
structure UserProfile where
  age : Option ℤ := none
  allergies : List String := []
  has_diabetes : Bool := false
  diabetes_measure : Option String := none
  diabetes_value : Option ℤ := none
  blood_pressure_systolic : Option ℤ := none
  blood_pressure_diastolic : Option ℤ := none
deriving DecidableEq

/-- `AIAnalyzedIngredient`: one element of the classifier response. -/
structure AIAnalyzedIngredient where
  name : String
  category : String
  riskLevel : RiskLevel
  baseScore : ℚ
  concerns : List String
  isAllergen : Bool
  diabetesRisk : Bool
  bpRisk : Bool
deriving DecidableEq

/-- `MultiplierInfo` from `scoringEngine.ts`. -/
structure MultiplierInfo where
  reason : String
  value : ℚ
deriving DecidableEq

/-- `IngredientScore` from `scoringEngine.ts`. -/
structure IngredientScore where
  name : String
  canonicalForm : String
  category : String
  baselineRisk : RiskLevel
  baseScore : ℚ
  multipliers : List MultiplierInfo
  finalScore : ℤ
  comment : String
  isAllergen : Bool
deriving DecidableEq

/-- The product-level verdict. -/
inductive Verdict
  | Good
  | Moderate
  | Bad
deriving DecidableEq

/-- The redacted profile copy embedded in a `ProductScore`: the source's
object literal assigns exactly the four fields below and nothing else. -/
structure RedactedProfile where
  age : Option ℤ
  has_diabetes : Bool
  blood_pressure_systolic : Option ℤ
  blood_pressure_diastolic : Option ℤ
deriving DecidableEq

/-- `ProductScore` from `scoringEngine.ts`. -/
structure ProductScore where
  productName : String
  scanDate : String
  userProfile : RedactedProfile
  ingredientScores : List IngredientScore
  productScore : ℤ
  verdict : Verdict
  topReasons : List String
  disclaimer : String
deriving DecidableEq

/-- `MULTIPLIERS.ALLERGY_PENALTY`. -/
def ALLERGY_PENALTY : ℚ := 10
/-- `MULTIPLIERS.DIABETES_MULTIPLIER` (`1.5`). -/
def DIABETES_MULTIPLIER : ℚ := 3/2
/-- `MULTIPLIERS.BLOOD_PRESSURE_MULTIPLIER` (`1.3`). -/
def BLOOD_PRESSURE_MULTIPLIER : ℚ := 13/10
/-- `MULTIPLIERS.AGE_MULTIPLIER` (`1.1`). -/
def AGE_MULTIPLIER : ℚ := 11/10
/-- `AGE_THRESHOLD`. -/
def AGE_THRESHOLD : ℤ := 65
/-- `HIGH_BP_SYSTOLIC`. -/
def HIGH_BP_SYSTOLIC : ℤ := 130
/-- `HIGH_BP_DIASTOLIC`. -/
def HIGH_BP_DIASTOLIC : ℤ := 80

/-- JavaScript truthiness of a number: nonzero.  (The source guards optional
numeric fields with `x && x >= bound`.) -/
def intTruthy (v : ℤ) : Bool := v != 0

/-- `userProfile.blood_pressure_systolic && userProfile.blood_pressure_systolic >= HIGH_BP_SYSTOLIC`. -/
def sysHigh (p : UserProfile) : Bool :=
  match p.blood_pressure_systolic with
  | some s => intTruthy s && decide (s ≥ HIGH_BP_SYSTOLIC)
  | none => false

/-- `userProfile.blood_pressure_diastolic && userProfile.blood_pressure_diastolic >= HIGH_BP_DIASTOLIC`. -/
def diaHigh (p : UserProfile) : Bool :=
  match p.blood_pressure_diastolic with
  | some d => intTruthy d && decide (d ≥ HIGH_BP_DIASTOLIC)
  | none => false

/-- `hasHighBP` in the local scoring path: systolic or diastolic above its
threshold, each considered only when present (and truthy). -/
def hasHighBP (p : UserProfile) : Bool := sysHigh p || diaHigh p

/-- `userProfile.age && userProfile.age > AGE_THRESHOLD`. -/
def ageOver (p : UserProfile) : Bool :=
  match p.age with
  | some a => intTruthy a && decide (a > AGE_THRESHOLD)
  | none => false

/-- The allergy test of `scoreIngredient`: some profile allergy is a
case-insensitive substring of the ingredient name, or vice versa. -/
def allergyMatch (ingredientName : String) (p : UserProfile) : Bool :=
  p.allergies.any (fun allergy =>
    jsIncludes (jsLower ingredientName) (jsLower allergy) ||
    jsIncludes (jsLower allergy) (jsLower ingredientName))

/-- The multiplier record pushed by the allergy branch. -/
def allergyMultInfo : MultiplierInfo :=
  { reason := "Matches your allergen list", value := ALLERGY_PENALTY }
/-- The multiplier record pushed by the diabetes branch. -/
def diabetesMultInfo : MultiplierInfo :=
  { reason := "High glycemic concern for diabetes", value := DIABETES_MULTIPLIER }
/-- The multiplier record pushed by the blood-pressure branch. -/
def bpMultInfo : MultiplierInfo :=
  { reason := "Sodium concern for blood pressure", value := BLOOD_PRESSURE_MULTIPLIER }
/-- The multiplier record pushed by the age branch. -/
def ageMultInfo : MultiplierInfo :=
  { reason := "Increased concern for age > 65", value := AGE_MULTIPLIER }

/-- The fixed allergen-alert comment. -/
def allergenAlertComment : String :=
  "⚠️ ALLERGEN ALERT: This ingredient matches your allergy profile and should be avoided."

/-- `generateComment` from `scoringEngine.ts`. -/
def generateComment (ingredient : IngredientInfo) (multipliers : List MultiplierInfo)
    (isAllergen : Bool) : String :=
  if isAllergen then allergenAlertComment
  else
    match multipliers with
    | [] =>
      if ingredient.baselineRisk == RiskLevel.LOW then
        "✓ Generally considered safe with no specific concerns for your profile."
      else
        "Moderate concern ingredient, but no personalized risk factors apply."
    | m :: _ =>
      let cs := String.intercalate ", " ingredient.concerns
      let r := m.reason
      s!"Elevated concern due to: {cs}. {r}."

/-- `createDefaultScore` from `scoringEngine.ts`.  Unreachable in practice:
`scoreIngredient` only calls it when `findIngredient` returns `null`, which
never happens (every path of `findIngredient` returns a record); it is kept
for completeness of the embedding. -/
def createDefaultScore (ingredientName : String) : IngredientScore :=
  { name := ingredientName
    canonicalForm := jsUnderscoreRuns (jsLower ingredientName)
    category := "unknown"
    baselineRisk := .LOW
    baseScore := 0
    multipliers := []
    finalScore := 0
    comment := "Ingredient not in database - unable to assess risk."
    isAllergen := false }

/-- `scoreIngredient` from `scoringEngine.ts` (the Knowledge-Base path).  The
four personalization branches run in source order — allergy penalty (+10),
diabetes (×1.5), blood pressure (×1.3), age (×1.1) — each on the running
score, which is rounded at the end with no ceiling.  The multiplier records
are pushed in the same order. -/
def scoreIngredient (ingredientName : String) (userProfile : UserProfile) :
    IngredientScore :=
  let ingredientInfo := findIngredient ingredientName
  let hasAllergy := ingredientInfo.affectedBy.allergies &&
    allergyMatch ingredientName userProfile
  let s1 : ℚ :=
    if hasAllergy then (ingredientInfo.baseScore : ℚ) + ALLERGY_PENALTY
    else (ingredientInfo.baseScore : ℚ)
  let diabetesApplies := ingredientInfo.affectedBy.diabetes && userProfile.has_diabetes
  let s2 := if diabetesApplies then s1 * DIABETES_MULTIPLIER else s1
  let bpApplies := ingredientInfo.affectedBy.bloodPressure && hasHighBP userProfile
  let s3 := if bpApplies then s2 * BLOOD_PRESSURE_MULTIPLIER else s2
  let ageApplies := ingredientInfo.affectedBy.age && ageOver userProfile
  let s4 := if ageApplies then s3 * AGE_MULTIPLIER else s3
  let multipliers : List MultiplierInfo :=
    (if hasAllergy then [allergyMultInfo] else []) ++
    (if diabetesApplies then [diabetesMultInfo] else []) ++
    (if bpApplies then [bpMultInfo] else []) ++
    (if ageApplies then [ageMultInfo] else [])
  { name := ingredientInfo.name
    canonicalForm := ingredientInfo.canonicalForm
    category := ingredientInfo.category
    baselineRisk := ingredientInfo.baselineRisk
    baseScore := (ingredientInfo.baseScore : ℚ)
    multipliers := multipliers
    finalScore := jsRound s4
    comment := generateComment ingredientInfo multipliers hasAllergy
    isAllergen := hasAllergy }

/-- `generateCommentFromAI` from `scoringEngine.ts`; identical comment policy,
reading the risk tier and concerns from the classifier record. -/
def generateCommentFromAI (ingredient : AIAnalyzedIngredient)
    (multipliers : List MultiplierInfo) (isAllergen : Bool) : String :=
  if isAllergen then allergenAlertComment
  else
    match multipliers with
    | [] =>
      if ingredient.riskLevel == RiskLevel.LOW then
        "✓ Generally considered safe with no specific concerns for your profile."
      else
        "Moderate concern ingredient, but no personalized risk factors apply."
    | m :: _ =>
      let cs := String.intercalate ", " ingredient.concerns
      let r := m.reason
      s!"Elevated concern due to: {cs}. {r}."

/-- `scoreIngredientWithAI` from `scoringEngine.ts` (the Classifier path).
Allergen penalty from the precomputed flag, diabetes ×1.5, blood pressure
×1.3 (systolic only — the source never reads diastolic here), age ×1.1 for
categories in {preservative, fat, additive}; the rounded score is clamped to
a ceiling of 10. -/
def scoreIngredientWithAI (aiData : AIAnalyzedIngredient) (userProfile : UserProfile) :
    IngredientScore :=
  let s1 : ℚ :=
    if aiData.isAllergen then aiData.baseScore + ALLERGY_PENALTY else aiData.baseScore
  let diabetesApplies := userProfile.has_diabetes && aiData.diabetesRisk
  let s2 := if diabetesApplies then s1 * DIABETES_MULTIPLIER else s1
  let bpApplies := aiData.bpRisk && sysHigh userProfile
  let s3 := if bpApplies then s2 * BLOOD_PRESSURE_MULTIPLIER else s2
  let ageApplies := ageOver userProfile &&
    ["preservative", "fat", "additive"].contains aiData.category
  let s4 := if ageApplies then s3 * AGE_MULTIPLIER else s3
  let multipliers : List MultiplierInfo :=
    (if aiData.isAllergen then [allergyMultInfo] else []) ++
    (if diabetesApplies then [diabetesMultInfo] else []) ++
    (if bpApplies then [bpMultInfo] else []) ++
    (if ageApplies then [ageMultInfo] else [])
  { name := aiData.name
    canonicalForm := jsUnderscoreRuns (jsLower aiData.name)
    category := aiData.category
    baselineRisk := aiData.riskLevel
    baseScore := aiData.baseScore
    multipliers := multipliers
    finalScore := min (jsRound s4) 10
    comment := generateCommentFromAI aiData multipliers aiData.isAllergen
    isAllergen := aiData.isAllergen }

/-- `generateTopReasons` from `scoringEngine.ts`: allergen count, high-risk
names, first multiplier reason, positive fallback for Good — capped at 3. -/
def generateTopReasons (ingredientScores : List IngredientScore) (verdict : Verdict) :
    List String :=
  let allergens := ingredientScores.filter (fun ing => ing.isAllergen)
  let r1 : List String :=
    if allergens.length > 0 then
      let n := allergens.length
      [s!"Contains {n} allergen(s) matching your profile"]
    else []
  let highRisk := ingredientScores.filter (fun ing => ing.baselineRisk == RiskLevel.HIGH)
  let r2 : List String :=
    r1 ++
      (if highRisk.length > 0 then
        let n := highRisk.length
        let names := String.intercalate ", " (highRisk.map (fun i => i.name))
        [s!"Contains {n} high-risk ingredient(s): {names}"]
      else [])
  let withMultipliers := ingredientScores.filter (fun ing => ing.multipliers.length > 0)
  let r3 : List String :=
    r2 ++
      (match withMultipliers with
       | [] => []
       | topConcern :: _ =>
         if r2.length < 3 then
           match topConcern.multipliers with
           | [] => []
           | m :: _ => [m.reason]
         else [])
  let r4 : List String :=
    r3 ++
      (if verdict == Verdict.Good && r3.length == 0 then
        let lowRisk :=
          (ingredientScores.filter (fun ing => ing.baselineRisk == RiskLevel.LOW)).length
        [s!"{lowRisk} low-risk ingredients with no personalized concerns",
         "No allergens or high-risk additives detected"]
      else [])
  r4.take 3

/-- The fixed disclaimer attached to every `ProductScore`. -/
def disclaimerText : String :=
  "This analysis is for informational purposes only and is not a substitute for professional medical advice, diagnosis, or treatment."

/-- The indexed map of `scoreProduct`: `ingredients.map((ing, index) => ...)`
— use the positional classifier record when one exists, else fall back to the
local Knowledge-Base path. -/
def scoreEach (userProfile : UserProfile) (aiAnalysis : List AIAnalyzedIngredient) :
    List String → Nat → List IngredientScore
  | [], _ => []
  | ing :: rest, index =>
    (match aiAnalysis[index]? with
     | some aiData => scoreIngredientWithAI aiData userProfile
     | none => scoreIngredient ing userProfile) ::
      scoreEach userProfile aiAnalysis rest (index + 1)

/-- `scoreProduct` from `scoringEngine.ts`.  `aiAnalysis` is the result of the
awaited `analyzeIngredientsWithAI` call (`[]` on any failure) and `scanDate`
stands for `new Date().toISOString()`; both are external inputs of the
pipeline. -/
def scoreProduct (productName : String) (ingredients : List String)
    (userProfile : UserProfile) (aiAnalysis : List AIAnalyzedIngredient)
    (scanDate : String) : ProductScore :=
  let ingredientScores := scoreEach userProfile aiAnalysis ingredients 0
  let totalScore : ℤ := (ingredientScores.map (fun ing => ing.finalScore)).sum
  let avgScore : ℚ :=
    if ingredients.length > 0 then (totalScore : ℚ) / (ingredients.length : ℚ) else 0
  let productScore : ℤ := min (jsRound (avgScore / 30 * 100)) 100
  let verdict : Verdict :=
    if productScore ≤ 30 then .Good
    else if productScore ≤ 60 then .Moderate
    else .Bad
  { productName := productName
    scanDate := scanDate
    userProfile :=
      { age := userProfile.age
        has_diabetes := userProfile.has_diabetes
        blood_pressure_systolic := userProfile.blood_pressure_systolic
        blood_pressure_diastolic := userProfile.blood_pressure_diastolic }
    ingredientScores := ingredientScores
    productScore := productScore
    verdict := verdict
    topReasons := generateTopReasons ingredientScores verdict
    disclaimer := disclaimerText }

/-! ## OCR text parsing (`parseIngredients` / `parseIngredientList`)

The source uses three regular expressions; they are embedded here by their
backtracking semantics, specialised to the concrete patterns.  The recursive
scanners take an explicit fuel argument (always instantiated with enough fuel
to be exhaustive) so that they are structurally recursive and the kernel can
evaluate them. -/

/-- Does `pat` (given lowercase) match case-insensitively at offset `i`? -/
def matchesCIAt (pat : List Char) (s : List Char) (i : Nat) : Bool :=
  pat.isPrefixOf ((s.drop i).map Char.toLower)

/-- Fuel-driven scan for the least offset `≥ i` where `pat` matches
case-insensitively. -/
def firstMatchFromGo (pat s : List Char) : Nat → Nat → Option Nat
  | 0, _ => none
  | fuel + 1, i =>
    if i + pat.length ≤ s.length then
      if matchesCIAt pat s i then some i else firstMatchFromGo pat s fuel (i + 1)
    else none

/-- Least offset `≥ i` at which `pat` matches case-insensitively, if any. -/
def firstMatchFrom (pat s : List Char) (i : Nat) : Option Nat :=
  firstMatchFromGo pat s (s.length + 1) i

/-- Fuel-driven scan for the end of the lazy group of the section regex: the
least offset `≥ lo` where `Contains` or `Nutrition` matches case-insensitively,
or the end of the string (the `$` alternative). -/
def termSearchGo (s : List Char) : Nat → Nat → Nat
  | 0, _ => s.length
  | fuel + 1, lo =>
    if lo ≥ s.length then s.length
    else if matchesCIAt "contains".toList s lo || matchesCIAt "nutrition".toList s lo
      then lo
    else termSearchGo s fuel (lo + 1)

/-- Least offset `≥ lo` matching the terminator alternation
`(?:Contains|CONTAINS|Nutrition|NUTRITION|$)`. -/
def termSearch (s : List Char) (lo : Nat) : Nat := termSearchGo s (s.length + 1) lo

/-- The character class `[:\s]`. -/
def colonOrSpace (c : Char) : Bool := c == ':' || jsIsSpace c

/-- Attempt the tail `[:\s]+(.+?)(?:Contains|CONTAINS|Nutrition|NUTRITION|$)`
of the section regex at a position `k` where `Ingredients` has already
matched (so the tail starts at `k + 11`).  The greedy `[:\s]+` takes its
maximal run, backing off one character only when it would leave nothing for
the mandatory nonempty lazy group; the lazy group ends at the first position
where the terminator alternation matches. -/
def sectionAttempt (s : List Char) (k : Nat) : Option (List Char) :=
  let g := k + 11
  let run := ((s.drop g).takeWhile colonOrSpace).length
  if run = 0 then none
  else
    let m := if g + run < s.length then run else run - 1
    if m = 0 then none
    else
      let p := g + m
      let e := termSearch s (p + 1)
      some ((s.drop p).take (e - p))

/-- Fuel-driven leftmost-match loop for
`/(?:Ingredients|INGREDIENTS)[:\s]+(.+?)(?:Contains|CONTAINS|Nutrition|NUTRITION|$)/i`:
try each occurrence of `Ingredients` from left to right until the tail
succeeds. -/
def sectionSearchGo (s : List Char) : Nat → Nat → Option (List Char)
  | 0, _ => none
  | fuel + 1, i =>
    match firstMatchFrom "ingredients".toList s i with
    | none => none
    | some k =>
      match sectionAttempt s k with
      | some grp => some grp
      | none => sectionSearchGo s fuel (k + 1)

/-- Group 1 of the source's `ingredientsMatch` regex, if it matches. -/
def ingredientsSectionOf (s : List Char) : Option (List Char) :=
  sectionSearchGo s (s.length + 1) 0

/-- Attempt the tail `[:\s]+(.+)` of the fallback regex at a position `k`
where `Ingredients` has matched; the greedy group takes everything to the end
of the string. -/
def fallbackAttempt (s : List Char) (k : Nat) : Option (List Char) :=
  let g := k + 11
  let run := ((s.drop g).takeWhile colonOrSpace).length
  if run = 0 then none
  else
    let m := if g + run < s.length then run else run - 1
    if m = 0 then none
    else some (s.drop (g + m))

/-- Fuel-driven leftmost-match loop for
`/(?:Ingredients|INGREDIENTS)[:\s]+(.+)/i`. -/
def fallbackSearchGo (s : List Char) : Nat → Nat → Option (List Char)
  | 0, _ => none
  | fuel + 1, i =>
    match firstMatchFrom "ingredients".toList s i with
    | none => none
    | some k =>
      match fallbackAttempt s k with
      | some grp => some grp
      | none => fallbackSearchGo s fuel (k + 1)

/-- Group 1 of the source's `fallbackMatch` regex, if it matches. -/
def fallbackSectionOf (s : List Char) : Option (List Char) :=
  fallbackSearchGo s (s.length + 1) 0

/-- `.replace(/\([^)]*\)/g, '')`: drop every parenthetical — from a `(`
through the first following `)`; a `(` with no later `)` is left in place.
The fuel argument (instantiated with the list length) makes the recursion
structural; each step consumes at least one character, so the default case is
never reached. -/
def removeParensGo : Nat → List Char → List Char
  | 0, l => l
  | fuel + 1, l =>
    match l with
    | [] => []
    | c :: rest =>
      if c == '(' then
        match rest.findIdx? (fun d => d == ')') with
        | some j => removeParensGo fuel (rest.drop (j + 1))
        | none => c :: removeParensGo fuel rest
      else c :: removeParensGo fuel rest

/-- Drop every `(...)` group, as the source's parenthetical-removal step. -/
def removeParens (l : List Char) : List Char := removeParensGo l.length l

/-- JavaScript `\w`: ASCII alphanumeric or underscore. -/
def isWordChar (c : Char) : Bool := c.isAlpha || c.isDigit || c == '_'

/-- The per-token cleanup of `parseIngredientList`: strip parentheticals and
trim, replace every character outside `[\w\s-]` by a space and trim, then
collapse whitespace runs. -/
def cleanToken (ing : List Char) : List Char :=
  let a := trimChars (removeParens ing)
  let b := trimChars (a.map (fun c => if isWordChar c || jsIsSpace c || c == '-' then c else ' '))
  collapseRuns jsIsSpace ' ' b

/-- `parseIngredientList` from `scoringEngine.ts`: split on `,` and `;`, trim
and drop empties, clean each token, and drop tokens of length `≤ 2` or made
only of digits. -/
def parseIngredientList (text : List Char) : List String :=
  let pieces :=
    ((text.splitOnP (fun c => c == ',' || c == ';')).map trimChars).filter
      (fun ing => ing.length > 0)
  let cleaned := pieces.map cleanToken
  (cleaned.filter (fun ing =>
      decide (ing.length > 2) && !(decide (ing.length > 0) && ing.all Char.isDigit))).map
    String.mk

/-- `ParsedIngredients` from `scoringEngine.ts`. -/
structure ParsedIngredients where
  productName : String
  ingredients : List String
  rawText : String
deriving DecidableEq

/-- `parseIngredients` from `scoringEngine.ts`: collapse newline runs then
whitespace runs to single spaces and trim; read the product name as the lazy
nonempty prefix before the first `Ingredients` marker (`"Unknown Product"`
when the marker is absent or initial — the `.+?` group of the anchored regex
needs at least one character; the cleaned text holds no newline, so `.`
matching everything but newline is immaterial); take the ingredient section
between the marker and the first `Contains`/`Nutrition` or the end, falling
back to everything after the marker, or the whole cleaned text. -/
def parseIngredients (ocrText : String) : ParsedIngredients :=
  let cleanText :=
    String.mk (trimChars (collapseRuns jsIsSpace ' '
      (collapseRuns (fun c => c == '\n') ' ' ocrText.data)))
  let cl := cleanText.data
  let productName :=
    match firstMatchFrom "ingredients".toList cl 1 with
    | some j => String.mk (trimChars (cl.take j))
    | none => "Unknown Product"
  match ingredientsSectionOf cl with
  | none =>
    let ingredientsText :=
      match fallbackSectionOf cl with
      | some t => t
      | none => cl
    { productName := productName
      ingredients := parseIngredientList ingredientsText
      rawText := cleanText }
  | some ingredientsText =>
    { productName := productName
      ingredients := parseIngredientList ingredientsText
      rawText := cleanText }

/-! ## Concrete inputs used by the theorems below -/

/-- The profile of spec example scenario 1 and of claim C3. -/
def scenarioProfile : UserProfile :=
  { age := some 70, allergies := [], has_diabetes := true,
    blood_pressure_systolic := some 140 }

/-- A profile whose allergen list matches the database's `artificial flavors`
entry. -/
def allergyProfile : UserProfile := { allergies := ["artificial"] }

/-- The profile of spec example scenario 2. -/
def peanutProfile : UserProfile := { allergies := ["peanut"] }

/-- A classifier record flagged as an allergen, for exercising the classifier
path's allergen handling. -/
def allergenAI : AIAnalyzedIngredient :=
  { name := "peanut butter", category := "fat", riskLevel := .LOW, baseScore := 0,
    concerns := ["Severe allergen"], isAllergen := true, diabetesRisk := false,
    bpRisk := false }

/-- A classifier record with only the blood-pressure risk flag set. -/
def bpOnlyAI : AIAnalyzedIngredient :=
  { name := "sodium citrate", category := "mineral", riskLevel := .MODERATE,
    baseScore := 5, concerns := ["Sodium content"], isAllergen := false,
    diabetesRisk := false, bpRisk := true }

/-- A profile with no systolic reading and a diastolic reading at the
threshold. -/
def diastolicOnlyProfile : UserProfile := { blood_pressure_diastolic := some 90 }

/-- The OCR text of spec example scenario 3. -/
def chocoInput : String :=
  "Choco Bar Ingredients: Sugar, Milk, (2% or less of Salt), Cocoa. Contains: Milk, Soy"

/-! ## Helper lemmas -/

theorem jsRound_mono {a b : ℚ} (h : a ≤ b) : jsRound a ≤ jsRound b :=
  Int.floor_le_floor (by linarith)

theorem jsRound_nonneg {a : ℚ} (h : 0 ≤ a) : 0 ≤ jsRound a :=
  Int.floor_nonneg.mpr (by linarith)

theorem db_entry_base_nonneg : ∀ kv ∈ INGREDIENT_DATABASE, 0 ≤ kv.2.baseScore := by
  decide

theorem findIngredient_base_nonneg (name : String) :
    0 ≤ (findIngredient name).baseScore := by
  simp only [findIngredient]
  split
  · next kv h => exact db_entry_base_nonneg _ (List.mem_of_find?_eq_some h)
  · split
    · next kv h => exact db_entry_base_nonneg _ (List.mem_of_find?_eq_some h)
    · norm_num

theorem addStage_le {x c : ℚ} (hc : 0 ≤ c) {b bb : Bool}
    (hb : b = true → bb = true) :
    (if b then x + c else x) ≤ (if bb then x + c else x) := by
  cases b with
  | true => rw [hb rfl]
  | false =>
    cases bb with
    | true => simp only [Bool.false_eq_true, if_false, if_true]; linarith
    | false => simp

theorem addStage_nonneg {base c : ℚ} (hbase : 0 ≤ base) (hc : 0 ≤ c) (b : Bool) :
    0 ≤ if b then base + c else base := by
  cases b <;> simp <;> linarith

theorem mulStage_le {s t f : ℚ} (hf : 1 ≤ f) (hs : 0 ≤ s) (hst : s ≤ t)
    {b bb : Bool} (hb : b = true → bb = true) :
    (if b then s * f else s) ≤ (if bb then t * f else t) := by
  cases b with
  | true =>
    rw [hb rfl]
    simp only [if_true]
    exact mul_le_mul_of_nonneg_right hst (by linarith)
  | false =>
    cases bb with
    | true =>
      simp only [Bool.false_eq_true, if_false, if_true]
      nlinarith
    | false => simpa using hst

theorem mulStage_nonneg {s f : ℚ} (hf : 0 ≤ f) (hs : 0 ≤ s) (b : Bool) :
    0 ≤ if b then s * f else s := by
  cases b with
  | false => simpa using hs
  | true => simpa using mul_nonneg hs hf

theorem sysHigh_iff (p : UserProfile) :
    sysHigh p = true ↔ ∃ s, p.blood_pressure_systolic = some s ∧ 130 ≤ s := by
  unfold sysHigh intTruthy HIGH_BP_SYSTOLIC
  cases hs : p.blood_pressure_systolic with
  | none => simp
  | some s =>
    simp only [Bool.and_eq_true, bne_iff_ne, ne_eq, decide_eq_true_eq,
      Option.some.injEq]
    constructor
    · rintro ⟨_, h⟩; exact ⟨s, rfl, h⟩
    · rintro ⟨t, ht, h⟩; cases ht; exact ⟨by omega, h⟩

theorem diaHigh_iff (p : UserProfile) :
    diaHigh p = true ↔ ∃ d, p.blood_pressure_diastolic = some d ∧ 80 ≤ d := by
  unfold diaHigh intTruthy HIGH_BP_DIASTOLIC
  cases hd : p.blood_pressure_diastolic with
  | none => simp
  | some d =>
    simp only [Bool.and_eq_true, bne_iff_ne, ne_eq, decide_eq_true_eq,
      Option.some.injEq]
    constructor
    · rintro ⟨_, h⟩; exact ⟨d, rfl, h⟩
    · rintro ⟨t, ht, h⟩; cases ht; exact ⟨by omega, h⟩

theorem hasHighBP_iff (p : UserProfile) :
    hasHighBP p = true ↔
      ((∃ s, p.blood_pressure_systolic = some s ∧ 130 ≤ s) ∨
       (∃ d, p.blood_pressure_diastolic = some d ∧ 80 ≤ d)) := by
  unfold hasHighBP
  rw [Bool.or_eq_true, sysHigh_iff, diaHigh_iff]

theorem ageOver_iff (p : UserProfile) :
    ageOver p = true ↔ ∃ a, p.age = some a ∧ 65 < a := by
  unfold ageOver intTruthy AGE_THRESHOLD
  cases ha : p.age with
  | none => simp
  | some a =>
    simp only [Bool.and_eq_true, bne_iff_ne, ne_eq, decide_eq_true_eq,
      Option.some.injEq]
    constructor
    · rintro ⟨_, h⟩; exact ⟨a, rfl, h⟩
    · rintro ⟨t, ht, h⟩; cases ht; exact ⟨by omega, h⟩

/-- Monotonicity of the Knowledge-Base path in the four personalization
conditions: if every condition that holds for `p` also holds for `q`, the
final score cannot decrease. -/
theorem scoreIngredient_finalScore_mono (name : String) (p q : UserProfile)
    (hA : allergyMatch name p = true → allergyMatch name q = true)
    (hD : p.has_diabetes = true → q.has_diabetes = true)
    (hB : hasHighBP p = true → hasHighBP q = true)
    (hG : ageOver p = true → ageOver q = true) :
    (scoreIngredient name p).finalScore ≤ (scoreIngredient name q).finalScore := by
  have hbase : (0 : ℚ) ≤ ((findIngredient name).baseScore : ℚ) := by
    exact_mod_cast findIngredient_base_nonneg name
  simp only [scoreIngredient]
  apply jsRound_mono
  have cA : ((findIngredient name).affectedBy.allergies && allergyMatch name p) = true →
      ((findIngredient name).affectedBy.allergies && allergyMatch name q) = true := by
    intro h; rw [Bool.and_eq_true] at h ⊢; exact ⟨h.1, hA h.2⟩
  have cD : ((findIngredient name).affectedBy.diabetes && p.has_diabetes) = true →
      ((findIngredient name).affectedBy.diabetes && q.has_diabetes) = true := by
    intro h; rw [Bool.and_eq_true] at h ⊢; exact ⟨h.1, hD h.2⟩
  have cB : ((findIngredient name).affectedBy.bloodPressure && hasHighBP p) = true →
      ((findIngredient name).affectedBy.bloodPressure && hasHighBP q) = true := by
    intro h; rw [Bool.and_eq_true] at h ⊢; exact ⟨h.1, hB h.2⟩
  have cG : ((findIngredient name).affectedBy.age && ageOver p) = true →
      ((findIngredient name).affectedBy.age && ageOver q) = true := by
    intro h; rw [Bool.and_eq_true] at h ⊢; exact ⟨h.1, hG h.2⟩
  have h1le := addStage_le (x := ((findIngredient name).baseScore : ℚ))
    (c := ALLERGY_PENALTY) (by norm_num [ALLERGY_PENALTY]) cA
  have h1nn := addStage_nonneg hbase (c := ALLERGY_PENALTY)
    (by norm_num [ALLERGY_PENALTY])
    ((findIngredient name).affectedBy.allergies && allergyMatch name p)
  have h2le := mulStage_le (f := DIABETES_MULTIPLIER)
    (by norm_num [DIABETES_MULTIPLIER]) h1nn h1le cD
  have h2nn := mulStage_nonneg (f := DIABETES_MULTIPLIER)
    (by norm_num [DIABETES_MULTIPLIER]) h1nn
    ((findIngredient name).affectedBy.diabetes && p.has_diabetes)
  have h3le := mulStage_le (f := BLOOD_PRESSURE_MULTIPLIER)
    (by norm_num [BLOOD_PRESSURE_MULTIPLIER]) h2nn h2le cB
  have h3nn := mulStage_nonneg (f := BLOOD_PRESSURE_MULTIPLIER)
    (by norm_num [BLOOD_PRESSURE_MULTIPLIER]) h2nn
    ((findIngredient name).affectedBy.bloodPressure && hasHighBP p)
  exact mulStage_le (f := AGE_MULTIPLIER) (by norm_num [AGE_MULTIPLIER]) h3nn h3le cG

/-- The Knowledge-Base path never produces a negative final score. -/
theorem scoreIngredient_finalScore_nonneg (name : String) (p : UserProfile) :
    0 ≤ (scoreIngredient name p).finalScore := by
  have hbase : (0 : ℚ) ≤ ((findIngredient name).baseScore : ℚ) := by
    exact_mod_cast findIngredient_base_nonneg name
  simp only [scoreIngredient]
  apply jsRound_nonneg
  exact mulStage_nonneg (by norm_num [AGE_MULTIPLIER])
    (mulStage_nonneg (by norm_num [BLOOD_PRESSURE_MULTIPLIER])
      (mulStage_nonneg (by norm_num [DIABETES_MULTIPLIER])
        (addStage_nonneg hbase (by norm_num [ALLERGY_PENALTY]) _) _) _) _

/-- The Classifier path clamps to the ceiling of 10. -/
theorem scoreIngredientWithAI_finalScore_le (a : AIAnalyzedIngredient)
    (p : UserProfile) : (scoreIngredientWithAI a p).finalScore ≤ 10 := by
  simp only [scoreIngredientWithAI]
  exact min_le_right _ _

/-- The Classifier path is nonnegative when the classifier's base score is. -/
theorem scoreIngredientWithAI_finalScore_nonneg (a : AIAnalyzedIngredient)
    (p : UserProfile) (h : 0 ≤ a.baseScore) :
    0 ≤ (scoreIngredientWithAI a p).finalScore := by
  simp only [scoreIngredientWithAI]
  refine le_min ?_ (by norm_num)
  apply jsRound_nonneg
  exact mulStage_nonneg (by norm_num [AGE_MULTIPLIER])
    (mulStage_nonneg (by norm_num [BLOOD_PRESSURE_MULTIPLIER])
      (mulStage_nonneg (by norm_num [DIABETES_MULTIPLIER])
        (addStage_nonneg h (by norm_num [ALLERGY_PENALTY]) _) _) _) _

/-- With an empty classifier response, the indexed map of `scoreProduct`
degenerates to a plain map over the Knowledge-Base path. -/
theorem scoreEach_empty_ai (p : UserProfile) :
    ∀ (ings : List String) (i : Nat),
      scoreEach p [] ings i = ings.map (fun ing => scoreIngredient ing p) := by
  intro ings
  induction ings with
  | nil => intro i; rfl
  | cons ing rest ih =>
    intro i
    simp only [scoreEach, List.getElem?_nil, List.map_cons]
    exact congrArg _ (ih (i + 1))

/-- Every score produced by the indexed map is nonnegative, provided the
classifier base scores are. -/
theorem scoreEach_finalScore_nonneg (p : UserProfile)
    (ai : List AIAnalyzedIngredient) (hai : ∀ a ∈ ai, 0 ≤ a.baseScore) :
    ∀ (ings : List String) (i : Nat),
      ∀ s ∈ scoreEach p ai ings i, 0 ≤ s.finalScore := by
  intro ings
  induction ings with
  | nil => intro i s hs; simp [scoreEach] at hs
  | cons ing rest ih =>
    intro i s hs
    simp only [scoreEach, List.mem_cons] at hs
    rcases hs with h | h
    · subst h
      cases hA : ai[i]? with
      | some a =>
        simp only [hA]
        exact scoreIngredientWithAI_finalScore_nonneg a p
          (hai a (List.getElem?_mem hA))
      | none =>
        simp only [hA]
        exact scoreIngredient_finalScore_nonneg ing p
    · exact ih (i + 1) s h

/-- How the three-way verdict `ite` chain relates to the thresholds. -/
theorem verdict_ite_iff (S : ℤ) :
    ((if S ≤ 30 then Verdict.Good else if S ≤ 60 then Verdict.Moderate
        else Verdict.Bad) = Verdict.Good ↔ S ≤ 30) ∧
    ((if S ≤ 30 then Verdict.Good else if S ≤ 60 then Verdict.Moderate
        else Verdict.Bad) = Verdict.Moderate ↔ 31 ≤ S ∧ S ≤ 60) ∧
    ((if S ≤ 30 then Verdict.Good else if S ≤ 60 then Verdict.Moderate
        else Verdict.Bad) = Verdict.Bad ↔ 60 < S) := by
  by_cases h30 : S ≤ 30 <;> by_cases h60 : S ≤ 60 <;>
    simp [h30, h60] <;> omega

theorem mem_ite_singleton {α : Type} (x y : α) (b : Bool) :
    (x ∈ if b then [y] else ([] : List α)) ↔ b = true ∧ x = y := by
  cases b <;> simp

/-! ## Claim theorems -/

/-- Claim C2: for every ingredient list and profile, if the classifier
adapter returns an empty list, each element of the `ProductScore`'s
`ingredientScores` equals the result of scoring the corresponding input
ingredient purely through the local Knowledge-Base path (`scoreIngredient`). -/
theorem C2_empty_classifier_falls_back_to_kb (productName : String)
    (ingredients : List String) (p : UserProfile) (scanDate : String) :
    (scoreProduct productName ingredients p [] scanDate).ingredientScores =
      ingredients.map (fun ing => scoreIngredient ing p) := by
  simp only [scoreProduct]
  exact scoreEach_empty_ai p ingredients 0

/-- Claim C4, counterexample: a classifier-sourced ingredient with
`bpRisk = true`, scored against a profile with no systolic value and a
diastolic value of 90 (≥ 80), does NOT receive the ×1.3 blood-pressure
multiplier — the classifier path only consults the systolic reading — so the
claim's "in particular" consequence is false: no multiplier is recorded and
the final score stays at the base score 5. -/
theorem C4_counterexample :
    bpOnlyAI.bpRisk = true ∧
    diastolicOnlyProfile.blood_pressure_systolic = none ∧
    diastolicOnlyProfile.blood_pressure_diastolic = some 90 ∧ (80 : ℤ) ≤ 90 ∧
    (scoreIngredientWithAI bpOnlyAI diastolicOnlyProfile).multipliers = [] ∧
    (scoreIngredientWithAI bpOnlyAI diastolicOnlyProfile).finalScore = 5 := by
  refine ⟨rfl, rfl, rfl, by decide, by decide, ?_⟩
  have e : (scoreIngredientWithAI bpOnlyAI diastolicOnlyProfile).finalScore
      = min (jsRound (5 : ℚ)) 10 := rfl
  rw [e]
  norm_num [jsRound]

/-- Claim C4 as amended: on the Knowledge-Base entry point the ×1.3
blood-pressure multiplier is applied exactly when the ingredient's
`bloodPressure` flag is set and the profile has systolic ≥ 130 or diastolic
≥ 80 (each bound considered only when that field is present); on the
Classifier entry point it is applied exactly when `bpRisk` is set and the
profile has systolic ≥ 130 — the diastolic reading is ignored there, so a
classifier-sourced ingredient with only a diastolic reading does not receive
the multiplier. -/
theorem C4_amended_bp_multiplier_conditions :
    (∀ name p, bpMultInfo ∈ (scoreIngredient name p).multipliers ↔
      ((findIngredient name).affectedBy.bloodPressure = true ∧
        ((∃ s, p.blood_pressure_systolic = some s ∧ 130 ≤ s) ∨
         (∃ d, p.blood_pressure_diastolic = some d ∧ 80 ≤ d)))) ∧
    (∀ a p, bpMultInfo ∈ (scoreIngredientWithAI a p).multipliers ↔
      (a.bpRisk = true ∧ ∃ s, p.blood_pressure_systolic = some s ∧ 130 ≤ s)) := by
  have d1 : bpMultInfo ≠ allergyMultInfo := by decide
  have d2 : bpMultInfo ≠ diabetesMultInfo := by decide
  have d3 : bpMultInfo ≠ ageMultInfo := by decide
  constructor
  · intro name p
    simp only [scoreIngredient, List.mem_append, mem_ite_singleton, d1, d2, d3,
      and_false, false_or, or_false, and_true]
    rw [Bool.and_eq_true, hasHighBP_iff]
  · intro a p
    simp only [scoreIngredientWithAI, List.mem_append, mem_ite_singleton, d1, d2, d3,
      and_false, false_or, or_false, and_true]
    rw [Bool.and_eq_true, sysHigh_iff]

/-- Claim C5: the Classifier-path final score is clamped to 10, hence ≤ 10
for every input; the Knowledge-Base path has no such ceiling: the allergy-
flagged database ingredient `artificial flavors` (base score 5), scored
against a profile whose allergen list matches it, reaches final score 15,
which exceeds 10. -/
theorem C5_ai_ceiling_kb_unbounded :
    (∀ (a : AIAnalyzedIngredient) (p : UserProfile),
      (scoreIngredientWithAI a p).finalScore ≤ 10) ∧
    (scoreIngredient "artificial flavors" allergyProfile).finalScore = 15 ∧
    10 < (scoreIngredient "artificial flavors" allergyProfile).finalScore := by
  have e : (scoreIngredient "artificial flavors" allergyProfile).finalScore
      = jsRound (((5 : ℤ) : ℚ) + ALLERGY_PENALTY) := rfl
  refine ⟨scoreIngredientWithAI_finalScore_le, ?_, ?_⟩ <;>
    rw [e] <;> norm_num [jsRound, ALLERGY_PENALTY]

/-- Claim C6, counterexample: on the scenario-3 OCR text the parser does not
return the list claimed by the spec — the token `(2% or less of Salt)` is a
complete parenthetical, so the `\([^)]*\)` removal deletes it wholesale and
nothing of it survives the length filter. -/
theorem C6_counterexample :
    (parseIngredients chocoInput).ingredients ≠
      ["Sugar", "Milk", "or less of Salt", "Cocoa"] := by decide

/-- Claim C6 as amended: `parseIngredients` on
`"Choco Bar Ingredients: Sugar, Milk, (2% or less of Salt), Cocoa. Contains: Milk, Soy"`
returns product name `"Choco Bar"` and ingredient list
`["Sugar", "Milk", "Cocoa"]` — the fully parenthesized token is removed
entirely by the parenthetical filter and then dropped as empty. -/
theorem C6_amended_parse_result :
    (parseIngredients chocoInput).productName = "Choco Bar" ∧
    (parseIngredients chocoInput).ingredients = ["Sugar", "Milk", "Cocoa"] :=
  ⟨by decide, by decide⟩

/-- Claim C7: on either scoring entry point, whenever the produced
`IngredientScore` has `isAllergen = true` its comment is exactly the fixed
allergen-alert string, regardless of which other multipliers were applied. -/
theorem C7_allergen_comment_precedence :
    (∀ name p, (scoreIngredient name p).isAllergen = true →
      (scoreIngredient name p).comment = allergenAlertComment) ∧
    (∀ a p, (scoreIngredientWithAI a p).isAllergen = true →
      (scoreIngredientWithAI a p).comment = allergenAlertComment) := by
  constructor
  · intro name p h
    simp only [scoreIngredient] at h ⊢
    rw [h]
    simp [generateComment]
  · intro a p h
    simp only [scoreIngredientWithAI] at h ⊢
    rw [h]
    simp [generateCommentFromAI]

/-- Witness for C7 at concrete inputs: spec scenario 2 (`peanuts` against the
allergy list `["peanut"]`) on the Knowledge-Base path, and an
`isAllergen`-flagged classifier record on the Classifier path. -/
theorem C7_witness :
    (scoreIngredient "peanuts" peanutProfile).comment = allergenAlertComment ∧
    (scoreIngredientWithAI allergenAI peanutProfile).comment = allergenAlertComment :=
  ⟨C7_allergen_comment_precedence.1 "peanuts" peanutProfile (by decide),
   C7_allergen_comment_precedence.2 allergenAI peanutProfile (by decide)⟩

/-- Claim C9: any input that is empty after lowercasing and trimming does not
resolve to the unknown-ingredient default: the empty string is a substring of
every database key, so the partial-match scan returns the first entry in
iteration order — the `sugar` record (category `sweetener`, `MODERATE`, base
score 5). -/
theorem C9_empty_input_matches_first_entry (s : String)
    (h : jsTrim (jsLower s) = "") :
    some (findIngredient s) = INGREDIENT_DATABASE.head?.map (fun kv => kv.2) ∧
    (findIngredient s).category = "sweetener" ∧
    (findIngredient s).baselineRisk = RiskLevel.MODERATE ∧
    (findIngredient s).baseScore = 5 ∧
    (findIngredient s).category ≠ "unknown" := by
  have e1 : INGREDIENT_DATABASE.find? (fun kv => kv.1 == "") = none := by decide
  have e2 : INGREDIENT_DATABASE.find?
      (fun kv => jsIncludes "" kv.1 || jsIncludes kv.1 "") =
      some ("sugar",
        { name := "Sugar", canonicalForm := "sugar", category := "sweetener",
          baselineRisk := .MODERATE, baseScore := 5,
          concerns := ["High glycemic index", "Blood sugar spikes"],
          affectedBy := { diabetes := true } }) := by decide
  simp only [findIngredient, h, e1, e2]
  exact ⟨by decide, trivial, trivial, trivial, by decide⟩

/-- Witness for C9 at the empty string itself. -/
theorem C9_witness :
    some (findIngredient "") = INGREDIENT_DATABASE.head?.map (fun kv => kv.2) ∧
    (findIngredient "").category = "sweetener" ∧
    (findIngredient "").baselineRisk = RiskLevel.MODERATE ∧
    (findIngredient "").baseScore = 5 ∧
    (findIngredient "").category ≠ "unknown" :=
  C9_empty_input_matches_first_entry "" (by decide)

/-- Claim C10: the `userProfile` embedded in a `ProductScore` holds exactly
the four fields age, has_diabetes, blood_pressure_systolic and
blood_pressure_diastolic of the input profile; the allergies list and the
diabetes_measure/diabetes_value fields are never copied, so two runs on
profiles differing only in those fields produce identical `userProfile`
results. -/
theorem C10_profile_redaction :
    (∀ pn ings p ai d,
      (scoreProduct pn ings p ai d).userProfile =
        { age := p.age, has_diabetes := p.has_diabetes,
          blood_pressure_systolic := p.blood_pressure_systolic,
          blood_pressure_diastolic := p.blood_pressure_diastolic }) ∧
    (∀ pn ings p ai d al m v,
      (scoreProduct pn ings
          { p with allergies := al, diabetes_measure := m, diabetes_value := v }
          ai d).userProfile =
        (scoreProduct pn ings p ai d).userProfile) :=
  ⟨fun _ _ _ _ _ => rfl, fun _ _ _ _ _ _ _ _ => rfl⟩

/-- Claim C3: Knowledge-Base scoring applies the personalization steps in the
fixed order allergy +10, then diabetes ×1.5, then blood pressure ×1.3, then
age ×1.1 (each only when the `affectedBy` flag and the profile condition
hold), then rounds; in particular, against the scenario profile
(`has_diabetes`, age 70, systolic 140) with the classifier unavailable,
`sugar` scores 8, `salt` scores 7 and `water` scores 0. -/
theorem C3_personalization_order_and_examples :
    (∀ name p,
      (scoreIngredient name p).finalScore =
        jsRound
          ((((if (findIngredient name).affectedBy.allergies && allergyMatch name p then
                ((findIngredient name).baseScore : ℚ) + ALLERGY_PENALTY
              else ((findIngredient name).baseScore : ℚ)) *
             (if (findIngredient name).affectedBy.diabetes && p.has_diabetes then
                DIABETES_MULTIPLIER else 1)) *
            (if (findIngredient name).affectedBy.bloodPressure && hasHighBP p then
               BLOOD_PRESSURE_MULTIPLIER else 1)) *
           (if (findIngredient name).affectedBy.age && ageOver p then
              AGE_MULTIPLIER else 1))) ∧
    (scoreIngredient "sugar" scenarioProfile).finalScore = 8 ∧
    (scoreIngredient "salt" scenarioProfile).finalScore = 7 ∧
    (scoreIngredient "water" scenarioProfile).finalScore = 0 := by
  refine ⟨?_, ?_, ?_, ?_⟩
  · intro name p
    simp only [scoreIngredient]
    congr 1
    cases hA : ((findIngredient name).affectedBy.allergies && allergyMatch name p) <;>
      cases hD : ((findIngredient name).affectedBy.diabetes && p.has_diabetes) <;>
        cases hB : ((findIngredient name).affectedBy.bloodPressure && hasHighBP p) <;>
          cases hG : ((findIngredient name).affectedBy.age && ageOver p) <;>
            simp
  · have e : (scoreIngredient "sugar" scenarioProfile).finalScore
        = jsRound (((5 : ℤ) : ℚ) * DIABETES_MULTIPLIER) := rfl
    rw [e]
    norm_num [jsRound, DIABETES_MULTIPLIER]
  · have e : (scoreIngredient "salt" scenarioProfile).finalScore
        = jsRound (((5 : ℤ) : ℚ) * BLOOD_PRESSURE_MULTIPLIER) := rfl
    rw [e]
    norm_num [jsRound, BLOOD_PRESSURE_MULTIPLIER]
  · have e : (scoreIngredient "water" scenarioProfile).finalScore
        = jsRound (((0 : ℤ) : ℚ)) := rfl
    rw [e]
    norm_num [jsRound]

/-- Claim C8: switching on one applicable personalization signal — adding an
allergy, setting `has_diabetes`, supplying a systolic reading ≥ 130 or a
diastolic reading ≥ 80, or supplying an age above 65 — while holding every
other profile field equal never decreases an ingredient's final score from
`scoreIngredient`. -/
theorem C8_score_monotonicity :
    (∀ name (p : UserProfile) (a : String),
      (scoreIngredient name p).finalScore ≤
        (scoreIngredient name { p with allergies := a :: p.allergies }).finalScore) ∧
    (∀ name (p : UserProfile),
      (scoreIngredient name p).finalScore ≤
        (scoreIngredient name { p with has_diabetes := true }).finalScore) ∧
    (∀ name (p : UserProfile) (v : ℤ), 130 ≤ v →
      (scoreIngredient name p).finalScore ≤
        (scoreIngredient name
          { p with blood_pressure_systolic := some v }).finalScore) ∧
    (∀ name (p : UserProfile) (v : ℤ), 80 ≤ v →
      (scoreIngredient name p).finalScore ≤
        (scoreIngredient name
          { p with blood_pressure_diastolic := some v }).finalScore) ∧
    (∀ name (p : UserProfile) (a : ℤ), 65 < a →
      (scoreIngredient name p).finalScore ≤
        (scoreIngredient name { p with age := some a }).finalScore) := by
  refine ⟨?_, ?_, ?_, ?_, ?_⟩
  · intro name p a
    apply scoreIngredient_finalScore_mono
    · intro h
      simp only [allergyMatch, List.any_cons] at h ⊢
      rw [Bool.or_eq_true]
      exact Or.inr h
    · exact fun h => h
    · exact fun h => h
    · exact fun h => h
  · intro name p
    apply scoreIngredient_finalScore_mono
    · exact fun h => h
    · exact fun _ => rfl
    · exact fun h => h
    · exact fun h => h
  · intro name p v hv
    apply scoreIngredient_finalScore_mono
    · exact fun h => h
    · exact fun h => h
    · exact fun _ => (hasHighBP_iff _).mpr (Or.inl ⟨v, rfl, hv⟩)
    · exact fun h => h
  · intro name p v hv
    apply scoreIngredient_finalScore_mono
    · exact fun h => h
    · exact fun h => h
    · exact fun _ => (hasHighBP_iff _).mpr (Or.inr ⟨v, rfl, hv⟩)
    · exact fun h => h
  · intro name p a ha
    apply scoreIngredient_finalScore_mono
    · exact fun h => h
    · exact fun h => h
    · exact fun h => h
    · exact fun _ => (ageOver_iff _).mpr ⟨a, rfl, ha⟩

/-- Witness for C8: each monotonicity part applied at a concrete ingredient
and profile pair. -/
theorem C8_witness :
    (scoreIngredient "milk" ({} : UserProfile)).finalScore ≤
      (scoreIngredient "milk" { allergies := ["milk"] }).finalScore ∧
    (scoreIngredient "sugar" ({} : UserProfile)).finalScore ≤
      (scoreIngredient "sugar" { has_diabetes := true }).finalScore ∧
    (scoreIngredient "salt" ({} : UserProfile)).finalScore ≤
      (scoreIngredient "salt" { blood_pressure_systolic := some 140 }).finalScore ∧
    (scoreIngredient "salt" ({} : UserProfile)).finalScore ≤
      (scoreIngredient "salt" { blood_pressure_diastolic := some 90 }).finalScore ∧
    (scoreIngredient "saturated fat" ({} : UserProfile)).finalScore ≤
      (scoreIngredient "saturated fat" { age := some 70 }).finalScore :=
  ⟨C8_score_monotonicity.1 "milk" {} "milk",
   C8_score_monotonicity.2.1 "sugar" {},
   C8_score_monotonicity.2.2.1 "salt" {} 140 (by decide),
   C8_score_monotonicity.2.2.2.1 "salt" {} 90 (by decide),
   C8_score_monotonicity.2.2.2.2 "saturated fat" {} 70 (by decide)⟩

/-- Claim C1: for any non-empty ingredient list (with classifier base scores
in 0–10 when a classifier response is present), the product score is the
average of the final per-ingredient scores divided by 30, multiplied by 100,
rounded and capped at 100; it lies in [0, 100]; and the verdict is Good iff
it is ≤ 30, Moderate iff it is 31–60, and Bad iff it is > 60. -/
theorem C1_aggregation_bounds_and_verdict (productName : String)
    (ingredients : List String) (p : UserProfile)
    (aiAnalysis : List AIAnalyzedIngredient) (scanDate : String)
    (hne : ingredients ≠ [])
    (hai : ∀ a ∈ aiAnalysis, 0 ≤ a.baseScore ∧ a.baseScore ≤ 10) :
    (scoreProduct productName ingredients p aiAnalysis scanDate).productScore =
      min (jsRound
        ((((((scoreProduct productName ingredients p aiAnalysis
                scanDate).ingredientScores.map (fun i => i.finalScore)).sum : ℤ) : ℚ) /
           (ingredients.length : ℚ)) / 30 * 100)) 100 ∧
    0 ≤ (scoreProduct productName ingredients p aiAnalysis scanDate).productScore ∧
    (scoreProduct productName ingredients p aiAnalysis scanDate).productScore ≤ 100 ∧
    ((scoreProduct productName ingredients p aiAnalysis scanDate).verdict =
        Verdict.Good ↔
      (scoreProduct productName ingredients p aiAnalysis scanDate).productScore ≤ 30) ∧
    ((scoreProduct productName ingredients p aiAnalysis scanDate).verdict =
        Verdict.Moderate ↔
      31 ≤ (scoreProduct productName ingredients p aiAnalysis scanDate).productScore ∧
        (scoreProduct productName ingredients p aiAnalysis scanDate).productScore ≤ 60) ∧
    ((scoreProduct productName ingredients p aiAnalysis scanDate).verdict =
        Verdict.Bad ↔
      60 < (scoreProduct productName ingredients p aiAnalysis scanDate).productScore) := by
  have hlen : 0 < ingredients.length := List.length_pos.mpr hne
  have hscores : ∀ s ∈ scoreEach p aiAnalysis ingredients 0, 0 ≤ s.finalScore :=
    scoreEach_finalScore_nonneg p aiAnalysis (fun a ha => (hai a ha).1) ingredients 0
  have hsum :
      0 ≤ ((scoreEach p aiAnalysis ingredients 0).map (fun i => i.finalScore)).sum := by
    apply List.sum_nonneg
    intro x hx
    rcases List.mem_map.mp hx with ⟨s, hs, rfl⟩
    exact hscores s hs
  have hv : (scoreProduct productName ingredients p aiAnalysis scanDate).verdict =
      (if (scoreProduct productName ingredients p aiAnalysis
            scanDate).productScore ≤ 30 then Verdict.Good
       else if (scoreProduct productName ingredients p aiAnalysis
            scanDate).productScore ≤ 60 then Verdict.Moderate
       else Verdict.Bad) := rfl
  refine ⟨?_, ?_, ?_, ?_, ?_, ?_⟩
  · simp only [scoreProduct]
    rw [if_pos hlen]
  · simp only [scoreProduct]
    rw [if_pos hlen]
    refine le_min ?_ (by norm_num)
    apply jsRound_nonneg
    have h1 : (0 : ℚ) ≤
        (((((scoreEach p aiAnalysis ingredients 0).map
            (fun i => i.finalScore)).sum : ℤ)) : ℚ) := by
      exact_mod_cast hsum
    have h2 : (0 : ℚ) ≤ (ingredients.length : ℚ) := by positivity
    have h3 : (0 : ℚ) ≤
        (((((scoreEach p aiAnalysis ingredients 0).map
            (fun i => i.finalScore)).sum : ℤ)) : ℚ) / (ingredients.length : ℚ) / 30 :=
      div_nonneg (div_nonneg h1 h2) (by norm_num)
    exact mul_nonneg h3 (by norm_num)
  · simp only [scoreProduct]
    exact min_le_right _ _
  · rw [hv]
    exact (verdict_ite_iff _).1
  · rw [hv]
    exact (verdict_ite_iff _).2.1
  · rw [hv]
    exact (verdict_ite_iff _).2.2

/-- Witness for C1 on the scenario-1 product with the classifier unavailable. -/
theorem C1_witness :
    0 ≤ (scoreProduct "Choco" ["sugar", "salt", "water"] scenarioProfile []
          "2026-01-01").productScore ∧
    (scoreProduct "Choco" ["sugar", "salt", "water"] scenarioProfile []
          "2026-01-01").productScore ≤ 100 :=
  ⟨(C1_aggregation_bounds_and_verdict "Choco" ["sugar", "salt", "water"]
      scenarioProfile [] "2026-01-01" (by decide) (by simp)).2.1,
   (C1_aggregation_bounds_and_verdict "Choco" ["sugar", "salt", "water"]
      scenarioProfile [] "2026-01-01" (by decide) (by simp)).2.2.1⟩

end NutriScan
